import Mathlib

/-!
Shallow embedding of the core of the Closed-Loop RAG system
(`src/rag_system`): the text chunker, the document ingestion pipeline,
the RAG query engine and the simulated evaluator.

Conventions of the embedding:
* Python dictionaries are modelled as partial maps `String → Option Val`;
  the dict-literal / `{**a, **b}` merge semantics (later key wins) is
  `Dict.set` / `Dict.union`.
* Python `str.split()` (split on whitespace runs, dropping empties) is
  `pySplit`; `sep.join` is `pyJoin sep`; `str.lower` is `pyLower`.
  These are written by structural recursion on the character list so
  that concrete instances reduce.
* Fallible code returns `Except String`; an uncaught Python exception is
  an `Except.error` carrying its message.
* Python floats (retrieval scores, evaluation metrics) are modelled as
  exact rationals `ℚ`.
* Effectful collaborators (converter, embedding service, vector store,
  LLM client) are passed as explicit functions returning `Except`; each
  pipeline returns, next to its result, the trace of collaborator calls
  it performed, so that "stage X is never invoked" is expressible.
-/

/-- A value stored in a Python dict (only strings and ints occur in the
metadata dicts of this code base). -/
inductive Val where
  | str : String → Val
  | int : Int → Val
deriving DecidableEq, Repr

/-- A Python dict with string keys, as a partial map. -/
def Dict : Type := String → Option Val

/-- The empty dict `{}`. -/
def Dict.empty : Dict := fun _ => none

/-- `d.set k v` is the dict `{**d, k: v}`: key `k` now maps to `v`,
every other key is unchanged. -/
def Dict.set (d : Dict) (k : String) (v : Val) : Dict :=
  fun q => if q = k then some v else d q

/-- `a.union b` is the Python merge `{**a, **b}`: keys of `b` win on
collision, because they are spread last. -/
def Dict.union (a b : Dict) : Dict :=
  fun q => match b q with
    | some v => some v
    | none => a q

/-- Helper for `pySplit`: walk the character list, accumulating the
current token (reversed); whitespace ends the token, runs of whitespace
produce nothing. -/
def pySplitList : List Char → List Char → List String
  | [], cur => if cur.isEmpty then [] else [String.mk cur.reverse]
  | c :: rest, cur =>
    if c.isWhitespace then
      if cur.isEmpty then pySplitList rest []
      else String.mk cur.reverse :: pySplitList rest []
    else pySplitList rest (c :: cur)

/-- Python `text.split()` (no argument): split on runs of whitespace,
dropping empty pieces; `"".split() == []`. -/
def pySplit (text : String) : List String :=
  pySplitList text.data []

/-- Python `str.lower()`, characterwise. -/
def pyLower (s : String) : String :=
  String.mk (s.data.map Char.toLower)

/-- Python `sep.join(xs)`. -/
def pyJoin (sep : String) : List String → String
  | [] => ""
  | [x] => x
  | x :: rest => x ++ sep ++ pyJoin sep rest

/-- Structural-recursion engine for `offsetsFrom`: the fuel only bounds
the number of iterations (each iteration moves `start` up by at least
one, so `n - start` units of fuel always suffice) and is there to make
the definition reduce definitionally. -/
def offsetsFromFuel : Nat → Nat → Nat → Nat → List Nat
  | 0, _, _, _ => []
  | fuel + 1, start, n, sPred =>
    if start < n then start :: offsetsFromFuel fuel (start + sPred + 1) n sPred
    else []

/-- The offsets produced by Python `range(start, n, sPred + 1)` for a
positive step: `start, start + step, ...` while below `n`.  The step is
passed as its predecessor `sPred` so that it is positive by
construction.  `offsetsFrom_eq` below shows this satisfies the
defining recurrence of the Python loop. -/
def offsetsFrom (start n sPred : Nat) : List Nat :=
  offsetsFromFuel (n - start) start n sPred

/-- `TextChunker` from `ingestion/chunker.py` (fields and defaults as in
`__init__`). -/
structure TextChunker where
  chunk_size : Int := 512
  overlap : Int := 50

/-- `Chunk` from `ingestion/chunker.py`: a text plus a metadata dict. -/
structure Chunk where
  text : String
  metadata : Dict

/-- `TextChunker.chunk` from `ingestion/chunker.py`.

```python
words = text.split()
if not words: return []
for i in range(0, len(words), self.chunk_size - self.overlap):
    chunk_words = words[i : i + self.chunk_size]
    chunk_text = " ".join(chunk_words)
    chunk_idx = i // (self.chunk_size - self.overlap)
    chunks.append(Chunk(text=chunk_text, metadata={"source": source,
        "chunk_index": chunk_idx, "char_count": len(chunk_text)}))
```

Python `range(0, n, step)` raises `ValueError` when `step == 0`; when
`step < 0` it counts down from `0` and is empty because `0 > n` never
holds for `n ≥ 0`; when `step > 0` it is `offsetsFrom 0 n (step-1)`.
The slice `words[i : i + chunk_size]` is `(words.drop i).take
chunk_size.toNat` (empty when `chunk_size < 0`).  The source annotates
`source: str`, but the value flows in untyped from a metadata dict, so
it is embedded as a `Val`. -/
def TextChunker.chunk (c : TextChunker) (text : String) (source : Val) :
    Except String (List Chunk) :=
  let words := pySplit text
  if words.isEmpty then .ok []
  else
    let step : Int := c.chunk_size - c.overlap
    if step = 0 then .error "ValueError: range() arg 3 must not be zero"
    else if step < 0 then .ok []
    else
      let stride := step.toNat
      .ok ((offsetsFrom 0 words.length (stride - 1)).map (fun i =>
        let chunkWords := (words.drop i).take c.chunk_size.toNat
        let chunkText := pyJoin " " chunkWords
        { text := chunkText
          metadata :=
            ((Dict.empty.set "source" source).set
              "chunk_index" (.int ((i / stride : Nat) : Int))).set
              "char_count" (.int chunkText.length) }))

/-- The result dict of `DocumentIngester.ingest`: either the success
dict `{document_id, status: "completed", chunk_count, source}` or the
failure dict `{document_id, status: "failed", error}`. -/
inductive IngestResult where
  | completed (document_id : String) (chunk_count : Nat) (source : Val)
  | failed (document_id : String) (error : String)

/-- A collaborator call performed by `ingest`, with its arguments.
`E` is the type of the embedding-service output (never inspected by the
pipeline). -/
inductive Event (E : Type) where
  | convertCalled : Event E
  | chunkCalled (text : String) (source : Val) : Event E
  | embedCalled (texts : List String) : Event E
  | insertCalled (embeddings : E) (texts : List String)
      (metadatas : List Dict) : Event E

/-- `DocumentIngester.ingest` from `ingestion/ingester.py`.  The fresh
`uuid4` is the parameter `document_id`; the converter's outcome for the
given file is `convertResult`; `embed` and `insert` are the embedding
service and the Milvus client.  The whole body runs in a
`try/except Exception` that turns any stage error into the failure
dict, so the embedding is a total function.  `metadata["source"]`
raises `KeyError` when absent, which the same `except` catches. -/
def DocumentIngester.ingest {E : Type} (document_id : String)
    (convertResult : Except String (String × Dict))
    (chunker : TextChunker)
    (embed : List String → Except String E)
    (insert : E → List String → List Dict → Except String Unit) :
    IngestResult × List (Event E) :=
  match convertResult with
  | .error e => (.failed document_id e, [.convertCalled])
  | .ok (markdown, metadata) =>
    match metadata "source" with
    | none => (.failed document_id "KeyError: 'source'", [.convertCalled])
    | some src =>
      match chunker.chunk markdown src with
      | .error e =>
          (.failed document_id e, [.convertCalled, .chunkCalled markdown src])
      | .ok chunks =>
        let texts := chunks.map (fun c => c.text)
        match embed texts with
        | .error e =>
            (.failed document_id e,
              [.convertCalled, .chunkCalled markdown src, .embedCalled texts])
        | .ok embeddings =>
          let metadatas := chunks.map (fun c =>
            (c.metadata.union metadata).set "document_id" (.str document_id))
          match insert embeddings texts metadatas with
          | .error e =>
              (.failed document_id e,
                [.convertCalled, .chunkCalled markdown src,
                  .embedCalled texts, .insertCalled embeddings texts metadatas])
          | .ok _ =>
              (.completed document_id chunks.length src,
                [.convertCalled, .chunkCalled markdown src,
                  .embedCalled texts, .insertCalled embeddings texts metadatas])

/-- The first `insertCalled` event's `metadatas` argument, if any. -/
def insertMetadatas {E : Type} : List (Event E) → Option (List Dict)
  | [] => none
  | .insertCalled _ _ ms :: _ => some ms
  | _ :: rest => insertMetadatas rest

/-- One ranked hit returned by `MilvusVectorStore.search`, the dict
`{text, score, metadata}`.  Scores are Python floats, modelled as exact
rationals. -/
structure RetrievedHit where
  text : String
  score : ℚ
  metadata : Dict

/-- The result dict of `RAGQueryEngine.query`:
`{answer, sources, retrieved_count}`. -/
structure QueryResult where
  answer : String
  sources : List RetrievedHit
  retrieved_count : Nat

/-- A collaborator call performed by `query`.  `E` is the type of the
query embedding vector (never inspected by the pipeline). -/
inductive QEvent (E : Type) where
  | embedSingleCalled (question : String) : QEvent E
  | searchCalled (vector : E) (top_k : Int) : QEvent E
  | chatCalled (question context : String) : QEvent E

/-- `RAGQueryEngine.query` from `generation/rag_engine.py`.

```python
query_vector = await self.embeddings.embed_single(question)
results = await self.vector_store.search(query_vector, top_k=top_k)
if not results:
    return {"answer": "No relevant documents found.", "sources": [], "retrieved_count": 0}
context = "\n\n".join([r["text"] for r in results])
answer = await self.ollama.chat(question, context)
return {"answer": answer,
        "sources": [{"text": r["text"], "score": r["score"], "metadata": r["metadata"]} for r in results],
        "retrieved_count": len(results)}
```

Embedding and generation failures are not caught: they propagate to the
caller as `Except.error`. -/
def RAGQueryEngine.query {E : Type} (question : String) (top_k : Int)
    (embed_single : String → Except String E)
    (search : E → Int → Except String (List RetrievedHit))
    (chat : String → String → Except String String) :
    Except String QueryResult × List (QEvent E) :=
  match embed_single question with
  | .error e => (.error e, [.embedSingleCalled question])
  | .ok query_vector =>
    match search query_vector top_k with
    | .error e =>
        (.error e,
          [.embedSingleCalled question, .searchCalled query_vector top_k])
    | .ok results =>
      if results.isEmpty then
        (.ok { answer := "No relevant documents found.", sources := [],
               retrieved_count := 0 },
          [.embedSingleCalled question, .searchCalled query_vector top_k])
      else
        let context := pyJoin "\n\n" (results.map (fun r => r.text))
        match chat question context with
        | .error e =>
            (.error e,
              [.embedSingleCalled question, .searchCalled query_vector top_k,
                .chatCalled question context])
        | .ok answer =>
            (.ok { answer := answer,
                   sources := results.map (fun r =>
                     { text := r.text, score := r.score,
                       metadata := r.metadata }),
                   retrieved_count := results.length },
              [.embedSingleCalled question, .searchCalled query_vector top_k,
                .chatCalled question context])

/-- The dict returned by `SimulatedEvaluator.evaluate_query`: five float
metrics, modelled as exact rationals. -/
structure EvalRecord where
  faithfulness : ℚ
  context_precision : ℚ
  context_recall : ℚ
  answer_relevance : ℚ
  overall_score : ℚ
deriving DecidableEq, Repr

/-- Python `set(s.lower().split())`: the set of distinct lowercase
whitespace tokens of `s`. -/
def tokenSet (s : String) : Finset String :=
  (pySplit (pyLower s)).toFinset

/-- `SimulatedEvaluator.evaluate_query` from
`evaluation/trulens_evaluator.py`, a pure function of the query string
and the RAG response.  The Python code reads
`response.get("sources", [])` and `response.get("answer", "")`; the
response here is the engine's `QueryResult`, whose fields are always
present.

```python
answer_words = set(answer.lower().split())
sources_words = set(" ".join([s["text"] for s in sources]).lower().split())
overlap = len(answer_words & sources_words)
faithfulness = min(overlap / max(len(answer_words), 1), 1.0)
context_precision = sum([s["score"] for s in sources]) / len(sources) if sources else 0.0
context_recall = min(len(sources) / 5, 1.0)
relevance = len(query_words & answer_words) / max(len(query_words), 1)
overall_score = faithfulness*0.3 + relevance*0.3 + context_precision*0.2 + context_recall*0.2
```
-/
def SimulatedEvaluator.evaluate_query (query : String)
    (response : QueryResult) : EvalRecord :=
  let sources := response.sources
  let answer := response.answer
  let sources_text := pyJoin " " (sources.map (fun s => s.text))
  let answer_words := tokenSet answer
  let sources_words := tokenSet sources_text
  let overlap : ℚ := (answer_words ∩ sources_words).card
  let faithfulness : ℚ :=
    min (overlap / max (answer_words.card : ℚ) 1) 1
  let context_precision : ℚ :=
    if sources.isEmpty then 0
    else (sources.map (fun s => s.score)).sum / (sources.length : ℚ)
  let context_recall : ℚ := min ((sources.length : ℚ) / 5) 1
  let query_words := tokenSet query
  let relevance : ℚ :=
    ((query_words ∩ answer_words).card : ℚ) / max (query_words.card : ℚ) 1
  let overall_score : ℚ :=
    faithfulness * 0.3 + relevance * 0.3 + context_precision * 0.2 +
      context_recall * 0.2
  { faithfulness := faithfulness
    context_precision := context_precision
    context_recall := context_recall
    answer_relevance := relevance
    overall_score := overall_score }

/-- Spec-side descriptor for the chunker claims: window `k` of a token
list is the slice of up to `cs` tokens starting at offset
`k * stride`. -/
def windowTokens (words : List String) (stride cs k : Nat) : List String :=
  (words.drop (k * stride)).take cs

/-! ## Theorems -/

theorem offsetsFromFuel_congr (fuel₁ : Nat) :
    ∀ fuel₂ start n sPred, n - start ≤ fuel₁ → n - start ≤ fuel₂ →
      offsetsFromFuel fuel₁ start n sPred = offsetsFromFuel fuel₂ start n sPred := by
  induction fuel₁ with
  | zero =>
    intro fuel₂ start n sPred h1 _
    cases fuel₂ with
    | zero => rfl
    | succ f =>
      simp only [offsetsFromFuel]
      rw [if_neg (by omega)]
  | succ f ih =>
    intro fuel₂ start n sPred h1 h2
    cases fuel₂ with
    | zero =>
      simp only [offsetsFromFuel]
      rw [if_neg (by omega)]
    | succ g =>
      simp only [offsetsFromFuel]
      by_cases h : start < n
      · rw [if_pos h, if_pos h, ih g (start + sPred + 1) n sPred (by omega) (by omega)]
      · rw [if_neg h, if_neg h]

/-- The Python loop recurrence: emit `start` and continue at
`start + step` while `start < n`. -/
theorem offsetsFrom_eq (start n sPred : Nat) :
    offsetsFrom start n sPred =
      if start < n then start :: offsetsFrom (start + sPred + 1) n sPred
      else [] := by
  unfold offsetsFrom
  by_cases h : start < n
  · have hn : n - start = (n - start - 1) + 1 := by omega
    rw [hn]
    simp only [offsetsFromFuel]
    rw [if_pos h, if_pos h,
      offsetsFromFuel_congr (n - start - 1) (n - (start + sPred + 1))
        (start + sPred + 1) n sPred (by omega) (by omega)]
  · have hn : n - start = 0 := by omega
    rw [hn]
    simp only [offsetsFromFuel]
    rw [if_neg h]

/-- Element `j` of the offset list is `start + j * step` when that is
still below `n`, and absent otherwise. -/
theorem offsetsFrom_getElem? (j : Nat) :
    ∀ start n sPred, (offsetsFrom start n sPred)[j]? =
      if start + j * (sPred + 1) < n then some (start + j * (sPred + 1))
      else none := by
  induction j with
  | zero =>
    intro start n sPred
    rw [offsetsFrom_eq]
    by_cases h : start < n
    · rw [if_pos h]
      simp only [List.getElem?_cons_zero]
      rw [if_pos (by omega)]
      simp
    · rw [if_neg h]
      simp only [List.getElem?_nil]
      rw [if_neg (by omega)]
  | succ j ih =>
    intro start n sPred
    rw [offsetsFrom_eq]
    by_cases h : start < n
    · rw [if_pos h]
      simp only [List.getElem?_cons_succ]
      rw [ih (start + sPred + 1) n sPred]
      have harith : start + sPred + 1 + j * (sPred + 1) =
          start + (j + 1) * (sPred + 1) := by ring
      rw [harith]
    · rw [if_neg h]
      simp only [List.getElem?_nil]
      rw [if_neg (by omega)]

/-- Index `k` is a valid position in the offset list starting at 0 iff
the `k`-th offset `k * step` is below `n`. -/
theorem offsetsFrom_lt_length (k n sPred : Nat) :
    k < (offsetsFrom 0 n sPred).length ↔ k * (sPred + 1) < n := by
  have h := offsetsFrom_getElem? k 0 n sPred
  by_cases hk : 0 + k * (sPred + 1) < n
  · rw [if_pos hk] at h
    constructor
    · intro _
      omega
    · intro _
      have := List.getElem?_eq_some_iff.mp h
      exact this.1
  · rw [if_neg hk] at h
    constructor
    · intro hlen
      exact absurd (List.getElem?_eq_getElem hlen ▸ h) (by simp)
    · intro _
      omega

/-- C9: For every input whose whitespace split yields zero tokens (the
empty string or whitespace-only text such as `"   \n\t  "`),
`chunk(text, source)` returns the empty sequence and does not raise an
error, whatever the chunker configuration. -/
theorem chunk_empty_input (c : TextChunker) (text : String) (source : Val)
    (h : pySplit text = []) : c.chunk text source = .ok [] := by
  simp [TextChunker.chunk, h]

/-- Witness for C9 at the two concrete inputs of the spec, with the
default chunker configuration. -/
theorem chunk_empty_input_witness :
    pySplit "" = [] ∧ pySplit "   \n\t  " = [] ∧
    (TextChunker.mk 512 50).chunk "" (.str "s") = .ok [] ∧
    (TextChunker.mk 512 50).chunk "   \n\t  " (.str "s") = .ok [] :=
  ⟨by decide, by decide,
    chunk_empty_input (TextChunker.mk 512 50) "" (.str "s") (by decide),
    chunk_empty_input (TextChunker.mk 512 50) "   \n\t  " (.str "s") (by decide)⟩

/-- C2 (code behaviour at the failing configurations): with
`overlap > chunk_size` (negative stride) the chunker silently returns
`[]` on a non-empty input, and with `overlap == chunk_size` (zero
stride) it raises Python's bare `ValueError` from `range` — in neither
case the `ChunkingError` configuration error the spec prescribes, which
does not exist in the code base at all. -/
theorem chunk_degenerate_stride_behavior :
    (TextChunker.mk 2 3).chunk "a b c" (.str "s") = .ok [] ∧
    (TextChunker.mk 2 2).chunk "a b c" (.str "s") =
      .error "ValueError: range() arg 3 must not be zero" :=
  ⟨rfl, rfl⟩

/-- C5: if the vector store's search returns zero hits, `query` returns
exactly `{answer: "No relevant documents found.", sources: [],
retrieved_count: 0}` and the generation gateway (`chat`) is never
invoked — the trace of collaborator calls ends with the search. -/
theorem query_no_hits {E : Type} (question : String) (top_k : Int)
    (embed_single : String → Except String E)
    (search : E → Int → Except String (List RetrievedHit))
    (chat : String → String → Except String String)
    (qv : E) (hemb : embed_single question = .ok qv)
    (hsearch : search qv top_k = .ok []) :
    RAGQueryEngine.query question top_k embed_single search chat =
      (.ok { answer := "No relevant documents found.", sources := [],
             retrieved_count := 0 },
        [.embedSingleCalled question, .searchCalled qv top_k]) := by
  simp [RAGQueryEngine.query, hemb, hsearch]

/-- Witness for C5 at a concrete question, `top_k` and collaborators. -/
theorem query_no_hits_witness :
    RAGQueryEngine.query (E := Unit) "What is RAG?" 5
        (fun _ => .ok ()) (fun _ _ => .ok []) (fun _ _ => .ok "unused") =
      (.ok { answer := "No relevant documents found.", sources := [],
             retrieved_count := 0 },
        [.embedSingleCalled "What is RAG?", .searchCalled () 5]) :=
  query_no_hits "What is RAG?" 5 (fun _ => .ok ()) (fun _ _ => .ok [])
    (fun _ _ => .ok "unused") () rfl rfl

/-- C6: on a non-empty ranked hit list, `query` calls the generation
gateway with the context obtained by joining the hits' `text` fields in
rank order, separated by a double newline, and returns the sources as
`{text, score, metadata}` records in the same rank order, with
`retrieved_count` equal to the number of sources. -/
theorem query_context_and_sources {E : Type} (question : String)
    (top_k : Int)
    (embed_single : String → Except String E)
    (search : E → Int → Except String (List RetrievedHit))
    (chat : String → String → Except String String)
    (qv : E) (hits : List RetrievedHit) (answer : String)
    (hemb : embed_single question = .ok qv)
    (hsearch : search qv top_k = .ok hits)
    (hne : hits ≠ [])
    (hchat : chat question (pyJoin "\n\n" (hits.map (fun r => r.text))) =
      .ok answer) :
    RAGQueryEngine.query question top_k embed_single search chat =
      (.ok { answer := answer,
             sources := hits.map (fun r =>
               { text := r.text, score := r.score, metadata := r.metadata }),
             retrieved_count := hits.length },
        [.embedSingleCalled question, .searchCalled qv top_k,
          .chatCalled question (pyJoin "\n\n" (hits.map (fun r => r.text)))]) ∧
    hits.length = (hits.map (fun r =>
      ({ text := r.text, score := r.score,
         metadata := r.metadata } : RetrievedHit))).length := by
  constructor
  · simp [RAGQueryEngine.query, hemb, hsearch, hchat, hne]
  · rw [List.length_map]

/-- Witness for C6 at the spec's concrete two-hit example: the context
passed to `chat` is exactly `"First document\n\nSecond document"`. -/
theorem query_context_and_sources_witness :
    (RAGQueryEngine.query (E := Unit) "q" 2
        (fun _ => .ok ())
        (fun _ _ => .ok
          [{ text := "First document", score := 0.9, metadata := Dict.empty },
           { text := "Second document", score := 0.8, metadata := Dict.empty }])
        (fun _ _ => .ok "the answer") =
      (.ok { answer := "the answer",
             sources :=
               [{ text := "First document", score := 0.9,
                  metadata := Dict.empty },
                { text := "Second document", score := 0.8,
                  metadata := Dict.empty }],
             retrieved_count := 2 },
        [.embedSingleCalled "q", .searchCalled () 2,
          .chatCalled "q" (pyJoin "\n\n"
            ["First document", "Second document"])])) ∧
    pyJoin "\n\n" ["First document", "Second document"] =
      "First document\n\nSecond document" :=
  ⟨(query_context_and_sources "q" 2 (fun _ => .ok ())
      (fun _ _ => .ok
        [{ text := "First document", score := 0.9, metadata := Dict.empty },
         { text := "Second document", score := 0.8, metadata := Dict.empty }])
      (fun _ _ => .ok "the answer") ()
      [{ text := "First document", score := 0.9, metadata := Dict.empty },
       { text := "Second document", score := 0.8, metadata := Dict.empty }]
      "the answer" rfl rfl (by simp) rfl).1, by decide⟩

/-- C10: if the converter succeeds but its markdown splits into zero
tokens, `ingest` does not fail: the chunker returns zero chunks, the
embedding service and the vector store are invoked with empty lists,
and (the gateway calls succeeding) the result is
`{document_id, status: "completed", chunk_count: 0, source}` with the
document metadata's source. -/
theorem ingest_zero_tokens_completed {E : Type}
    (document_id markdown : String) (docMeta : Dict) (src : Val)
    (chunker : TextChunker)
    (embed : List String → Except String E)
    (insert : E → List String → List Dict → Except String Unit)
    (embs : E)
    (hsplit : pySplit markdown = [])
    (hsrc : docMeta "source" = some src)
    (hemb : embed [] = .ok embs)
    (hins : insert embs [] [] = .ok ()) :
    DocumentIngester.ingest document_id (.ok (markdown, docMeta)) chunker
        embed insert =
      (.completed document_id 0 src,
        [.convertCalled, .chunkCalled markdown src, .embedCalled [],
          .insertCalled embs [] []]) := by
  have hch : chunker.chunk markdown src = .ok [] := by
    simp [TextChunker.chunk, hsplit]
  simp [DocumentIngester.ingest, hsrc, hch, hemb, hins]

/-- Witness for C10: empty markdown, document metadata
`{source: "x"}`, trivial gateways. -/
theorem ingest_zero_tokens_completed_witness :
    DocumentIngester.ingest (E := Unit) "doc-1" (.ok ("", Dict.empty.set
        "source" (.str "x"))) (TextChunker.mk 512 50)
        (fun _ => .ok ()) (fun _ _ _ => .ok ()) =
      (.completed "doc-1" 0 (.str "x"),
        [.convertCalled, .chunkCalled "" (.str "x"), .embedCalled [],
          .insertCalled () [] []]) :=
  ingest_zero_tokens_completed "doc-1" ""
    (Dict.empty.set "source" (.str "x")) (.str "x") (TextChunker.mk 512 50)
    (fun _ => .ok ()) (fun _ _ _ => .ok ()) ()
    (by decide) (by decide) rfl rfl

/-- C4: `ingest` never raises: it is a total function into Document
Records, the fresh `document_id` is present even on failure, and each
stage failure short-circuits into `{document_id, status: "failed",
error: <message of the underlying error>}`; in particular when the
converter fails the trace is exactly `[convertCalled]`, so the chunker,
the embedding service and the vector store are never invoked.  The
final conjunct records that the propagated message is non-empty
whenever the underlying error's message is. -/
theorem ingest_never_raises_short_circuit {E : Type}
    (document_id e markdown : String) (docMeta : Dict) (src : Val)
    (chunker : TextChunker)
    (embed : List String → Except String E)
    (insert : E → List String → List Dict → Except String Unit)
    (hne : e ≠ "") :
    (DocumentIngester.ingest (E := E) document_id (.error e) chunker embed
        insert = (.failed document_id e, [.convertCalled])) ∧
    (docMeta "source" = some src →
      (chunker.chunk markdown src = .error e →
        DocumentIngester.ingest document_id (.ok (markdown, docMeta))
            chunker embed insert =
          (.failed document_id e,
            [.convertCalled, .chunkCalled markdown src])) ∧
      (∀ chunks, chunker.chunk markdown src = .ok chunks →
        (embed (chunks.map (fun ch => ch.text)) = .error e →
          DocumentIngester.ingest document_id (.ok (markdown, docMeta))
              chunker embed insert =
            (.failed document_id e,
              [.convertCalled, .chunkCalled markdown src,
                .embedCalled (chunks.map (fun ch => ch.text))])) ∧
        (∀ embs, embed (chunks.map (fun ch => ch.text)) = .ok embs →
          insert embs (chunks.map (fun ch => ch.text))
              (chunks.map (fun ch =>
                (ch.metadata.union docMeta).set "document_id"
                  (.str document_id))) = .error e →
          DocumentIngester.ingest document_id (.ok (markdown, docMeta))
              chunker embed insert =
            (.failed document_id e,
              [.convertCalled, .chunkCalled markdown src,
                .embedCalled (chunks.map (fun ch => ch.text)),
                .insertCalled embs (chunks.map (fun ch => ch.text))
                  (chunks.map (fun ch =>
                    (ch.metadata.union docMeta).set "document_id"
                      (.str document_id)))])))) ∧
    e ≠ "" := by
  refine ⟨by simp [DocumentIngester.ingest], fun hsrc => ⟨?_, ?_⟩, hne⟩
  · intro hch
    simp [DocumentIngester.ingest, hsrc, hch]
  · intro chunks hch
    refine ⟨?_, ?_⟩
    · intro hemb
      simp [DocumentIngester.ingest, hsrc, hch, hemb]
    · intro embs hemb hins
      simp [DocumentIngester.ingest, hsrc, hch, hemb, hins]

/-- Witness for C4 at a concrete failing converter: the error message
`"Conversion failed"` is propagated verbatim and nothing after the
converter runs. -/
theorem ingest_never_raises_short_circuit_witness :
    (DocumentIngester.ingest (E := Unit) "doc-1"
        (.error "Conversion failed") (TextChunker.mk 512 50)
        (fun _ => .ok ()) (fun _ _ _ => .ok ()) =
      (.failed "doc-1" "Conversion failed", [.convertCalled])) ∧
    ("Conversion failed" : String) ≠ "" :=
  ⟨(ingest_never_raises_short_circuit (E := Unit) "doc-1"
      "Conversion failed" "hello" Dict.empty (.str "x")
      (TextChunker.mk 512 50) (fun _ => .ok ()) (fun _ _ _ => .ok ())
      (by decide)).1,
    by decide⟩

/-- C1 counterexample: chunk-level keys do NOT take precedence on
collision.  The converter metadata `{source: "x", format: "pdf",
char_count: 99}` collides with the chunk metadata of `"hello"`
(whose chunk-level `char_count` is 5) on `char_count`; the metadata
actually passed to the vector store's insert stores `char_count = 99`,
the document-level value, because the Python merge
`{**chunk.metadata, **metadata, "document_id": ...}` spreads the
document metadata last. -/
theorem ingest_metadata_chunk_precedence_false :
    ((insertMetadatas (DocumentIngester.ingest (E := Unit) "doc-1"
        (.ok ("hello",
          ((Dict.empty.set "source" (.str "x")).set "format"
            (.str "pdf")).set "char_count" (.int 99)))
        (TextChunker.mk 512 50) (fun _ => .ok ())
        (fun _ _ _ => .ok ())).2).map
      (fun ms => ms.map (fun d => d "char_count"))) =
        some [some (.int 99)] ∧
    (((TextChunker.mk 512 50).chunk "hello" (.str "x")).map
      (fun L => L.map (fun ch => ch.metadata "char_count"))) =
        .ok [some (.int 5)] ∧
    Val.int 99 ≠ Val.int 5 :=
  ⟨rfl, rfl, by decide⟩

/-- C1 (amended): on successful ingestion the per-chunk metadata passed
to the vector store's insert is the merge of chunk metadata, document
metadata and `{document_id}`, in which DOCUMENT-level keys take
precedence over chunk-level keys on every colliding key, and
`document_id` is applied last and always wins; keys present only at
chunk level (such as `chunk_index`) survive unchanged, so for a chunk
with `chunk_index` 0 and document metadata `{source: "x",
format: "pdf"}` the stored metadata contains `chunk_index == 0`,
`format == "pdf"` and the injected `document_id`. -/
theorem ingest_metadata_merge_doc_wins {E : Type}
    (document_id markdown : String) (docMeta : Dict) (src : Val)
    (chunker : TextChunker)
    (embed : List String → Except String E)
    (insert : E → List String → List Dict → Except String Unit)
    (chunks : List Chunk) (embs : E)
    (hsrc : docMeta "source" = some src)
    (hch : chunker.chunk markdown src = .ok chunks)
    (hemb : embed (chunks.map (fun ch => ch.text)) = .ok embs)
    (hins : insert embs (chunks.map (fun ch => ch.text))
      (chunks.map (fun ch =>
        (ch.metadata.union docMeta).set "document_id"
          (.str document_id))) = .ok ()) :
    insertMetadatas (DocumentIngester.ingest document_id
        (.ok (markdown, docMeta)) chunker embed insert).2 =
      some (chunks.map (fun ch =>
        (ch.metadata.union docMeta).set "document_id"
          (.str document_id))) ∧
    ∀ ch : Chunk, ∀ k : String,
      ((ch.metadata.union docMeta).set "document_id"
          (.str document_id)) k =
        if k = "document_id" then some (.str document_id)
        else
          match docMeta k with
          | some v => some v
          | none => ch.metadata k := by
  constructor
  · simp [DocumentIngester.ingest, hsrc, hch, hemb, hins, insertMetadatas]
  · intro ch k
    by_cases hk : k = "document_id"
    · simp [Dict.set, hk]
    · simp [Dict.set, Dict.union, hk]

/-- Witness for C1 (amended) at the spec's example: document metadata
`{source: "x", format: "pdf"}`, one chunk of `"hello"` with
`chunk_index` 0; the stored metadata holds `chunk_index == 0`,
`format == "pdf"` and the injected `document_id`. -/
theorem ingest_metadata_merge_doc_wins_witness :
    insertMetadatas (DocumentIngester.ingest (E := Unit) "doc-1"
        (.ok ("hello",
          (Dict.empty.set "source" (.str "x")).set "format" (.str "pdf")))
        (TextChunker.mk 512 50) (fun _ => .ok ())
        (fun _ _ _ => .ok ())).2 =
      some (([Chunk.mk "hello"
        (((Dict.empty.set "source" (.str "x")).set "chunk_index"
          (.int 0)).set "char_count" (.int 5))] : List Chunk).map (fun ch =>
            (ch.metadata.union
              ((Dict.empty.set "source" (.str "x")).set "format"
                (.str "pdf"))).set "document_id" (.str "doc-1"))) ∧
    ((((((Dict.empty.set "source" (.str "x")).set "chunk_index"
        (.int 0)).set "char_count" (.int 5)).union
          ((Dict.empty.set "source" (.str "x")).set "format"
            (.str "pdf"))).set "document_id" (.str "doc-1"))
      "chunk_index" = some (.int 0)) ∧
    ((((((Dict.empty.set "source" (.str "x")).set "chunk_index"
        (.int 0)).set "char_count" (.int 5)).union
          ((Dict.empty.set "source" (.str "x")).set "format"
            (.str "pdf"))).set "document_id" (.str "doc-1"))
      "format" = some (.str "pdf")) ∧
    ((((((Dict.empty.set "source" (.str "x")).set "chunk_index"
        (.int 0)).set "char_count" (.int 5)).union
          ((Dict.empty.set "source" (.str "x")).set "format"
            (.str "pdf"))).set "document_id" (.str "doc-1"))
      "document_id" = some (.str "doc-1")) := by
  have h := ingest_metadata_merge_doc_wins (E := Unit) "doc-1" "hello"
    ((Dict.empty.set "source" (.str "x")).set "format" (.str "pdf"))
    (.str "x") (TextChunker.mk 512 50) (fun _ => .ok ())
    (fun _ _ _ => .ok ())
    [Chunk.mk "hello" (((Dict.empty.set "source" (.str "x")).set
      "chunk_index" (.int 0)).set "char_count" (.int 5))] ()
    (by decide) rfl rfl rfl
  exact ⟨h.1,
    h.2 (Chunk.mk "hello" (((Dict.empty.set "source" (.str "x")).set
      "chunk_index" (.int 0)).set "char_count" (.int 5))) "chunk_index",
    h.2 (Chunk.mk "hello" (((Dict.empty.set "source" (.str "x")).set
      "chunk_index" (.int 0)).set "char_count" (.int 5))) "format",
    h.2 (Chunk.mk "hello" (((Dict.empty.set "source" (.str "x")).set
      "chunk_index" (.int 0)).set "char_count" (.int 5))) "document_id"⟩

/-- C7: the evaluator is a total function (it never raises) and handles
the boundary inputs: empty sources give faithfulness 0 (regardless of
the answer) and context precision 0; an empty answer gives answer
relevance 0; context recall is `min(len(sources)/5, 1)`, so 5 sources
give 1 and 1 source gives 0.2. -/
theorem evaluator_total_and_boundaries (q : String) (r : QueryResult) :
    (r.sources = [] →
      (SimulatedEvaluator.evaluate_query q r).faithfulness = 0 ∧
      (SimulatedEvaluator.evaluate_query q r).context_precision = 0) ∧
    (r.answer = "" →
      (SimulatedEvaluator.evaluate_query q r).answer_relevance = 0) ∧
    (SimulatedEvaluator.evaluate_query q r).context_recall =
      min ((r.sources.length : ℚ) / 5) 1 ∧
    (r.sources.length = 5 →
      (SimulatedEvaluator.evaluate_query q r).context_recall = 1) ∧
    (r.sources.length = 1 →
      (SimulatedEvaluator.evaluate_query q r).context_recall = 0.2) := by
  have htok : tokenSet "" = ∅ := by decide
  refine ⟨fun hs => ?_, fun ha => ?_, rfl, fun h5 => ?_, fun h1 => ?_⟩
  · constructor
    · show min ((((tokenSet r.answer) ∩ tokenSet (pyJoin " "
        (r.sources.map (fun s => s.text)))).card : ℚ) /
          max ((tokenSet r.answer).card : ℚ) 1) 1 = 0
      rw [hs]
      simp only [List.map_nil]
      show min ((((tokenSet r.answer) ∩ tokenSet "").card : ℚ) /
        max ((tokenSet r.answer).card : ℚ) 1) 1 = 0
      rw [htok]
      simp only [Finset.inter_empty, Finset.card_empty, Nat.cast_zero,
        zero_div]
      norm_num
    · show (if r.sources.isEmpty then (0 : ℚ)
        else ((r.sources.map (fun s => s.score)).sum /
          (r.sources.length : ℚ))) = 0
      rw [hs]
      rfl
  · show (((tokenSet q) ∩ tokenSet r.answer).card : ℚ) /
      max ((tokenSet q).card : ℚ) 1 = 0
    rw [ha, htok]
    simp only [Finset.inter_empty, Finset.card_empty, Nat.cast_zero,
      zero_div]
  · show min ((r.sources.length : ℚ) / 5) 1 = 1
    rw [h5]
    norm_num
  · show min ((r.sources.length : ℚ) / 5) 1 = 0.2
    rw [h1]
    norm_num

/-- Witness for C7: a fully empty query result (faithfulness, precision
and relevance all 0), a 5-source result (recall 1) and a 1-source
result (recall 0.2). -/
theorem evaluator_total_and_boundaries_witness :
    (SimulatedEvaluator.evaluate_query "Test query"
      { answer := "", sources := [], retrieved_count := 0 }).faithfulness
        = 0 ∧
    (SimulatedEvaluator.evaluate_query "Test query"
      { answer := "", sources := [],
        retrieved_count := 0 }).context_precision = 0 ∧
    (SimulatedEvaluator.evaluate_query "Test query"
      { answer := "", sources := [],
        retrieved_count := 0 }).answer_relevance = 0 ∧
    (SimulatedEvaluator.evaluate_query "q"
      { answer := "a",
        sources :=
          [{ text := "s1", score := 0.9, metadata := Dict.empty },
           { text := "s2", score := 0.9, metadata := Dict.empty },
           { text := "s3", score := 0.9, metadata := Dict.empty },
           { text := "s4", score := 0.9, metadata := Dict.empty },
           { text := "s5", score := 0.9, metadata := Dict.empty }],
        retrieved_count := 5 }).context_recall = 1 ∧
    (SimulatedEvaluator.evaluate_query "q"
      { answer := "a",
        sources := [{ text := "s1", score := 0.9, metadata := Dict.empty }],
        retrieved_count := 1 }).context_recall = 0.2 :=
  ⟨((evaluator_total_and_boundaries "Test query"
      { answer := "", sources := [], retrieved_count := 0 }).1 rfl).1,
    ((evaluator_total_and_boundaries "Test query"
      { answer := "", sources := [], retrieved_count := 0 }).1 rfl).2,
    (evaluator_total_and_boundaries "Test query"
      { answer := "", sources := [], retrieved_count := 0 }).2.1 rfl,
    (evaluator_total_and_boundaries "q"
      { answer := "a",
        sources :=
          [{ text := "s1", score := 0.9, metadata := Dict.empty },
           { text := "s2", score := 0.9, metadata := Dict.empty },
           { text := "s3", score := 0.9, metadata := Dict.empty },
           { text := "s4", score := 0.9, metadata := Dict.empty },
           { text := "s5", score := 0.9, metadata := Dict.empty }],
        retrieved_count := 5 }).2.2.2.1 rfl,
    (evaluator_total_and_boundaries "q"
      { answer := "a",
        sources := [{ text := "s1", score := 0.9, metadata := Dict.empty }],
        retrieved_count := 1 }).2.2.2.2 rfl⟩

/-- C8: given source scores in `[0,1]`, every field of the evaluation
record lies in `[0,1]`, and the overall score is the fixed weighted
combination `0.3*faithfulness + 0.3*answer_relevance +
0.2*context_precision + 0.2*context_recall` (exactly, scores being
modelled as rationals). -/
theorem evaluator_range_and_overall (q : String) (r : QueryResult)
    (hs : ∀ s ∈ r.sources, 0 ≤ s.score ∧ s.score ≤ 1) :
    (0 ≤ (SimulatedEvaluator.evaluate_query q r).faithfulness ∧
      (SimulatedEvaluator.evaluate_query q r).faithfulness ≤ 1) ∧
    (0 ≤ (SimulatedEvaluator.evaluate_query q r).context_precision ∧
      (SimulatedEvaluator.evaluate_query q r).context_precision ≤ 1) ∧
    (0 ≤ (SimulatedEvaluator.evaluate_query q r).context_recall ∧
      (SimulatedEvaluator.evaluate_query q r).context_recall ≤ 1) ∧
    (0 ≤ (SimulatedEvaluator.evaluate_query q r).answer_relevance ∧
      (SimulatedEvaluator.evaluate_query q r).answer_relevance ≤ 1) ∧
    (0 ≤ (SimulatedEvaluator.evaluate_query q r).overall_score ∧
      (SimulatedEvaluator.evaluate_query q r).overall_score ≤ 1) ∧
    (SimulatedEvaluator.evaluate_query q r).overall_score =
      0.3 * (SimulatedEvaluator.evaluate_query q r).faithfulness +
      0.3 * (SimulatedEvaluator.evaluate_query q r).answer_relevance +
      0.2 * (SimulatedEvaluator.evaluate_query q r).context_precision +
      0.2 * (SimulatedEvaluator.evaluate_query q r).context_recall := by
  have hdenA : (0 : ℚ) < max ((tokenSet r.answer).card : ℚ) 1 :=
    lt_of_lt_of_le one_pos (le_max_right _ _)
  have hdenQ : (0 : ℚ) < max ((tokenSet q).card : ℚ) 1 :=
    lt_of_lt_of_le one_pos (le_max_right _ _)
  have hF : 0 ≤ (SimulatedEvaluator.evaluate_query q r).faithfulness ∧
      (SimulatedEvaluator.evaluate_query q r).faithfulness ≤ 1 := by
    constructor
    · exact le_min (div_nonneg (Nat.cast_nonneg _) hdenA.le) zero_le_one
    · exact min_le_right _ _
  have hP : 0 ≤ (SimulatedEvaluator.evaluate_query q r).context_precision ∧
      (SimulatedEvaluator.evaluate_query q r).context_precision ≤ 1 := by
    show (0 ≤ if r.sources.isEmpty then (0 : ℚ)
        else ((r.sources.map (fun s => s.score)).sum /
          (r.sources.length : ℚ))) ∧
      ((if r.sources.isEmpty then (0 : ℚ)
        else ((r.sources.map (fun s => s.score)).sum /
          (r.sources.length : ℚ))) ≤ 1)
    by_cases he : r.sources.isEmpty
    · norm_num [he]
    · have hlen : 0 < (r.sources.length : ℚ) := by
        have hne : r.sources ≠ [] := by
          intro hnil
          exact he (by rw [hnil]; rfl)
        have := List.length_pos.mpr hne
        exact_mod_cast this
      have hsum0 : 0 ≤ (r.sources.map (fun s => s.score)).sum := by
        apply List.sum_nonneg
        intro x hx
        obtain ⟨s, hsmem, rfl⟩ := List.mem_map.mp hx
        exact (hs s hsmem).1
      have hsum1 : (r.sources.map (fun s => s.score)).sum ≤
          (r.sources.length : ℚ) := by
        have hb := List.sum_le_card_nsmul (r.sources.map (fun s => s.score)) 1
          (by
            intro x hx
            obtain ⟨s, hsmem, rfl⟩ := List.mem_map.mp hx
            exact (hs s hsmem).2)
        rw [List.length_map] at hb
        simpa using hb
      simp only [if_neg he]
      exact ⟨div_nonneg hsum0 hlen.le, (div_le_one hlen).mpr hsum1⟩
  have hC : 0 ≤ (SimulatedEvaluator.evaluate_query q r).context_recall ∧
      (SimulatedEvaluator.evaluate_query q r).context_recall ≤ 1 := by
    constructor
    · exact le_min (div_nonneg (Nat.cast_nonneg _) (by norm_num)) zero_le_one
    · exact min_le_right _ _
  have hA : 0 ≤ (SimulatedEvaluator.evaluate_query q r).answer_relevance ∧
      (SimulatedEvaluator.evaluate_query q r).answer_relevance ≤ 1 := by
    constructor
    · exact div_nonneg (Nat.cast_nonneg _) hdenQ.le
    · refine (div_le_one hdenQ).mpr ?_
      refine le_trans ?_ (le_max_left _ _)
      exact_mod_cast Finset.card_le_card Finset.inter_subset_left
  have hO : (SimulatedEvaluator.evaluate_query q r).overall_score =
      (SimulatedEvaluator.evaluate_query q r).faithfulness * 0.3 +
      (SimulatedEvaluator.evaluate_query q r).answer_relevance * 0.3 +
      (SimulatedEvaluator.evaluate_query q r).context_precision * 0.2 +
      (SimulatedEvaluator.evaluate_query q r).context_recall * 0.2 := rfl
  refine ⟨hF, hP, hC, hA, ⟨?_, ?_⟩, by rw [hO]; ring⟩
  · rw [hO]
    nlinarith [hF.1, hP.1, hC.1, hA.1]
  · rw [hO]
    nlinarith [hF.2, hP.2, hC.2, hA.2, hF.1, hP.1, hC.1, hA.1]

/-- Witness for C8 at a concrete query result with one source of score
0.9. -/
theorem evaluator_range_and_overall_witness :
    (0 ≤ (SimulatedEvaluator.evaluate_query "Test query"
      { answer := "",
        sources := [{ text := "Source text", score := 0.9, metadata := Dict.empty }],
        retrieved_count := 1 }).faithfulness ∧
      (SimulatedEvaluator.evaluate_query "Test query"
      { answer := "",
        sources := [{ text := "Source text", score := 0.9, metadata := Dict.empty }],
        retrieved_count := 1 }).faithfulness ≤ 1) ∧
    (0 ≤ (SimulatedEvaluator.evaluate_query "Test query"
      { answer := "",
        sources := [{ text := "Source text", score := 0.9, metadata := Dict.empty }],
        retrieved_count := 1 }).context_precision ∧
      (SimulatedEvaluator.evaluate_query "Test query"
      { answer := "",
        sources := [{ text := "Source text", score := 0.9, metadata := Dict.empty }],
        retrieved_count := 1 }).context_precision ≤ 1) ∧
    (0 ≤ (SimulatedEvaluator.evaluate_query "Test query"
      { answer := "",
        sources := [{ text := "Source text", score := 0.9, metadata := Dict.empty }],
        retrieved_count := 1 }).context_recall ∧
      (SimulatedEvaluator.evaluate_query "Test query"
      { answer := "",
        sources := [{ text := "Source text", score := 0.9, metadata := Dict.empty }],
        retrieved_count := 1 }).context_recall ≤ 1) ∧
    (0 ≤ (SimulatedEvaluator.evaluate_query "Test query"
      { answer := "",
        sources := [{ text := "Source text", score := 0.9, metadata := Dict.empty }],
        retrieved_count := 1 }).answer_relevance ∧
      (SimulatedEvaluator.evaluate_query "Test query"
      { answer := "",
        sources := [{ text := "Source text", score := 0.9, metadata := Dict.empty }],
        retrieved_count := 1 }).answer_relevance ≤ 1) ∧
    (0 ≤ (SimulatedEvaluator.evaluate_query "Test query"
      { answer := "",
        sources := [{ text := "Source text", score := 0.9, metadata := Dict.empty }],
        retrieved_count := 1 }).overall_score ∧
      (SimulatedEvaluator.evaluate_query "Test query"
      { answer := "",
        sources := [{ text := "Source text", score := 0.9, metadata := Dict.empty }],
        retrieved_count := 1 }).overall_score ≤ 1) ∧
    (SimulatedEvaluator.evaluate_query "Test query"
      { answer := "",
        sources := [{ text := "Source text", score := 0.9, metadata := Dict.empty }],
        retrieved_count := 1 }).overall_score =
      0.3 * (SimulatedEvaluator.evaluate_query "Test query"
      { answer := "",
        sources := [{ text := "Source text", score := 0.9, metadata := Dict.empty }],
        retrieved_count := 1 }).faithfulness +
      0.3 * (SimulatedEvaluator.evaluate_query "Test query"
      { answer := "",
        sources := [{ text := "Source text", score := 0.9, metadata := Dict.empty }],
        retrieved_count := 1 }).answer_relevance +
      0.2 * (SimulatedEvaluator.evaluate_query "Test query"
      { answer := "",
        sources := [{ text := "Source text", score := 0.9, metadata := Dict.empty }],
        retrieved_count := 1 }).context_precision +
      0.2 * (SimulatedEvaluator.evaluate_query "Test query"
      { answer := "",
        sources := [{ text := "Source text", score := 0.9, metadata := Dict.empty }],
        retrieved_count := 1 }).context_recall :=
  evaluator_range_and_overall "Test query"
    { answer := "",
      sources := [{ text := "Source text", score := 0.9, metadata := Dict.empty }],
      retrieved_count := 1 }
    (by
      intro s hsmem
      simp only [List.mem_singleton] at hsmem
      rw [hsmem]
      norm_num)

/-- C3 counterexample: with `chunk_size = 3`, `overlap = 2`
(`stride = 1`) and the four-token text `"a b c d"`, the produced chunks
are `"a b c"`, `"b c d"`, `"c d"`, `"d"`.  Chunk 2 is not the final
chunk, yet its window shares only one token with chunk 3's window
(`["d"]`), not `overlap = 2` tokens: chunk 3's window has fewer than
`overlap` tokens, so "chunk i and chunk i+1 share exactly overlap
trailing/leading tokens for all but the final chunk" fails at
`i = 2`. -/
theorem chunk_overlap_share_false :
    ((TextChunker.mk 3 2).chunk "a b c d" (.str "s")).map
        (fun L => L.map (fun ch => ch.text)) =
      .ok ["a b c", "b c d", "c d", "d"] ∧
    (2 + 1 < 4) ∧
    (windowTokens (pySplit "a b c d") 1 3 2).drop 1 = ["d"] ∧
    (windowTokens (pySplit "a b c d") 1 3 3).take 2 = ["d"] ∧
    ((windowTokens (pySplit "a b c d") 1 3 3).take 2).length ≠ 2 :=
  ⟨rfl, by decide, by decide, by decide, by decide⟩

/-- C3 (amended): for a text with at least one token and a
configuration with `0 ≤ overlap < chunk_size` (stride
`= chunk_size - overlap ≥ 1`), `chunk` succeeds and emits windows at
offsets `0, stride, 2*stride, ...` while the offset is below the token
count `n`: chunk `k` exists iff `k * stride < n`; chunk `k`'s text is
the join of window `k` (the next `min(chunk_size, n - k*stride)`
tokens), its `chunk_index` is `k = (k*stride)/stride` and its
`char_count` is the joined text's length; the windows jointly cover all
`n` tokens (token `j` is entry `j mod stride` of window `j / stride`);
and consecutive windows `k`, `k+1` share exactly
`min(overlap, length of window k+1)` trailing/leading tokens — only
`overlap` exactly when window `k+1` has at least `overlap` tokens,
which the counterexample above shows can fail even for non-final
chunks. -/
theorem chunk_windows_spec (c : TextChunker) (text : String) (source : Val)
    (hov : 0 ≤ c.overlap) (hlt : c.overlap < c.chunk_size)
    (hne : pySplit text ≠ []) :
    ∃ L : List Chunk, c.chunk text source = .ok L ∧
      (∀ k : Nat, (k < L.length ↔
          k * (c.chunk_size - c.overlap).toNat < (pySplit text).length)) ∧
      (∀ k : Nat, k < L.length →
        L[k]? = some
          { text := pyJoin " " (windowTokens (pySplit text)
              (c.chunk_size - c.overlap).toNat c.chunk_size.toNat k)
            metadata :=
              ((Dict.empty.set "source" source).set
                "chunk_index" (.int ((k : Nat) : Int))).set
                "char_count" (.int (pyJoin " " (windowTokens (pySplit text)
                  (c.chunk_size - c.overlap).toNat
                  c.chunk_size.toNat k)).length) }) ∧
      (∀ k : Nat, k < L.length →
        (windowTokens (pySplit text) (c.chunk_size - c.overlap).toNat
            c.chunk_size.toNat k).length =
          min c.chunk_size.toNat
            ((pySplit text).length - k * (c.chunk_size - c.overlap).toNat)) ∧
      (∀ j : Nat, j < (pySplit text).length →
        j / (c.chunk_size - c.overlap).toNat < L.length ∧
        (windowTokens (pySplit text)
            (c.chunk_size - c.overlap).toNat c.chunk_size.toNat
            (j / (c.chunk_size - c.overlap).toNat))[j - j / (c.chunk_size - c.overlap).toNat * (c.chunk_size - c.overlap).toNat]? = (pySplit text)[j]?) ∧
      (∀ k : Nat, k + 1 < L.length →
        (windowTokens (pySplit text) (c.chunk_size - c.overlap).toNat
            c.chunk_size.toNat k).drop (c.chunk_size - c.overlap).toNat =
          (windowTokens (pySplit text) (c.chunk_size - c.overlap).toNat
            c.chunk_size.toNat (k + 1)).take c.overlap.toNat ∧
        ((windowTokens (pySplit text) (c.chunk_size - c.overlap).toNat
            c.chunk_size.toNat (k + 1)).take c.overlap.toNat).length =
          min c.overlap.toNat
            (windowTokens (pySplit text) (c.chunk_size - c.overlap).toNat
              c.chunk_size.toNat (k + 1)).length) := by
  have hstr : 0 < (c.chunk_size - c.overlap).toNat := by omega
  have hsp : (c.chunk_size - c.overlap).toNat - 1 + 1 =
      (c.chunk_size - c.overlap).toNat := by omega
  have hcs : (c.chunk_size - c.overlap).toNat ≤ c.chunk_size.toNat := by
    omega
  have hovcs : c.chunk_size.toNat - (c.chunk_size - c.overlap).toNat =
      c.overlap.toNat := by omega
  have hempty : (pySplit text).isEmpty = false := by
    cases hx : pySplit text with
    | nil => exact absurd hx hne
    | cons a l => rfl
  have hchunk : c.chunk text source = .ok
      ((offsetsFrom 0 (pySplit text).length
          ((c.chunk_size - c.overlap).toNat - 1)).map (fun i =>
        { text := pyJoin " " (((pySplit text).drop i).take c.chunk_size.toNat)
          metadata := ((Dict.empty.set "source" source).set "chunk_index"
            (.int ((i / (c.chunk_size - c.overlap).toNat : Nat) : Int))).set
            "char_count"
            (.int (pyJoin " " (((pySplit text).drop i).take
              c.chunk_size.toNat)).length) })) := by
    simp only [TextChunker.chunk, hempty, Bool.false_eq_true, if_false]
    rw [if_neg (by omega), if_neg (by omega)]
  refine ⟨_, hchunk, ?_, ?_, ?_, ?_, ?_⟩
  · intro k
    rw [List.length_map, offsetsFrom_lt_length, hsp]
  · intro k hk
    rw [List.length_map, offsetsFrom_lt_length, hsp] at hk
    rw [List.getElem?_map, offsetsFrom_getElem?, hsp]
    rw [if_pos (by omega)]
    have hdiv : k * (c.chunk_size - c.overlap).toNat /
        (c.chunk_size - c.overlap).toNat = k := Nat.mul_div_left k hstr
    simp only [Option.map_some', Nat.zero_add, windowTokens, hdiv]
  · intro k _
    simp only [windowTokens, List.length_take, List.length_drop]
  · intro j hj
    have hmul : (c.chunk_size - c.overlap).toNat *
        (j / (c.chunk_size - c.overlap).toNat) =
        (j / (c.chunk_size - c.overlap).toNat) *
        (c.chunk_size - c.overlap).toNat := Nat.mul_comm _ _
    have hmod := Nat.div_add_mod j (c.chunk_size - c.overlap).toNat
    have hmlt : j % (c.chunk_size - c.overlap).toNat <
        (c.chunk_size - c.overlap).toNat := Nat.mod_lt j hstr
    constructor
    · rw [List.length_map, offsetsFrom_lt_length, hsp]
      exact lt_of_le_of_lt (Nat.div_mul_le_self j _) hj
    · have hidx : j - j / (c.chunk_size - c.overlap).toNat *
          (c.chunk_size - c.overlap).toNat =
          j % (c.chunk_size - c.overlap).toNat := by omega
      simp only [windowTokens]
      rw [hidx, List.getElem?_take_of_lt (lt_of_lt_of_le hmlt hcs),
        List.getElem?_drop]
      have hsum : (j / (c.chunk_size - c.overlap).toNat) *
          (c.chunk_size - c.overlap).toNat +
          j % (c.chunk_size - c.overlap).toNat = j := by omega
      rw [hsum]
  · intro k _
    constructor
    · simp only [windowTokens]
      rw [List.drop_take, List.drop_drop, List.take_take]
      have harr : k * (c.chunk_size - c.overlap).toNat +
          (c.chunk_size - c.overlap).toNat =
          (k + 1) * (c.chunk_size - c.overlap).toNat := by ring
      have hminov : min c.overlap.toNat c.chunk_size.toNat =
          c.overlap.toNat := by omega
      rw [harr, hminov, hovcs]
    · simp only [windowTokens, List.length_take, List.length_drop]

/-- Witness for C3 (amended) at `chunk_size = 3`, `overlap = 2`
(stride 1) and text `"a b c d"`: four chunks; chunk 0 is the joined
window 0 with `chunk_index` 0 and its `char_count`; token 3 is covered
by window 3; windows 2 and 3 share `min 2 1 = 1` token. -/
theorem chunk_windows_spec_witness :
    (0 : Int) ≤ (TextChunker.mk 3 2).overlap ∧
    (TextChunker.mk 3 2).overlap < (TextChunker.mk 3 2).chunk_size ∧
    pySplit "a b c d" ≠ [] ∧
    (∃ L : List Chunk,
      (TextChunker.mk 3 2).chunk "a b c d" (Val.str "s") = .ok L ∧
      L.length = 4 ∧
      L[0]? = some
        { text := pyJoin " " (windowTokens (pySplit "a b c d") 1 3 0)
          metadata :=
            ((Dict.empty.set "source" (Val.str "s")).set
              "chunk_index" (Val.int 0)).set
              "char_count" (Val.int (pyJoin " "
                (windowTokens (pySplit "a b c d") 1 3 0)).length) }) ∧
    (windowTokens (pySplit "a b c d") 1 3 3)[0]? =
      (pySplit "a b c d")[3]? ∧
    (windowTokens (pySplit "a b c d") 1 3 2).drop 1 =
      (windowTokens (pySplit "a b c d") 1 3 3).take 2 ∧
    ((windowTokens (pySplit "a b c d") 1 3 3).take 2).length =
      min 2 (windowTokens (pySplit "a b c d") 1 3 3).length := by
  obtain ⟨L, hL, hlen, helem, hwins, hcov, hshare⟩ :=
    chunk_windows_spec (TextChunker.mk 3 2) "a b c d" (Val.str "s")
      (by decide) (by decide) (by decide)
  have ha : 3 < L.length := (hlen 3).mpr (by decide)
  have hb : ¬ (4 < L.length) := by
    intro h
    exact absurd ((hlen 4).mp h) (by decide)
  have h4 : L.length = 4 := by omega
  exact ⟨by decide, by decide, by decide,
    ⟨L, hL, h4, helem 0 (by omega)⟩,
    (hcov 3 (by decide)).2,
    (hshare 2 (by omega)).1,
    (hshare 2 (by omega)).2⟩
